import Mathlib

/-!
Shallow embedding of the mock delivery agency API
(src/mock-delivery-api.js): the in-memory parcel store, parcel
creation, manual status updates, the timed delivery simulation, and
the webhook payload construction.  Timestamps are modelled as natural
numbers supplied explicitly to each operation (every call of
`new Date()` inside one handler is modelled by that handler's single
`now` argument); webhook delivery is modelled by the list of payloads
the handler hands to the notifier.
-/

namespace MockDelivery

/-- STATUSES.PENDING_PICKUP from the source. -/
def PENDING_PICKUP : String := "pending_pickup"

/-- STATUSES.COLLECTED from the source. -/
def COLLECTED : String := "collected"

/-- STATUSES.IN_TRANSIT from the source. -/
def IN_TRANSIT : String := "in_transit"

/-- STATUSES.OUT_FOR_DELIVERY from the source. -/
def OUT_FOR_DELIVERY : String := "out_for_delivery"

/-- STATUSES.DELIVERED from the source. -/
def DELIVERED : String := "delivered"

/-- STATUSES.FAILED_DELIVERY from the source. -/
def FAILED_DELIVERY : String := "failed_delivery"

/-- STATUSES.RETURNED from the source. -/
def RETURNED : String := "returned"

/-- STATUSES.COMPLETED from the source. -/
def COMPLETED : String := "completed"

/-- STATUSES.CANCELLED from the source. -/
def CANCELLED : String := "cancelled"

/-- Object.values(STATUSES): the list of valid status strings, in the
object's declaration order. -/
def statusValues : List String :=
  [PENDING_PICKUP, COLLECTED, IN_TRANSIT, OUT_FOR_DELIVERY, DELIVERED,
   FAILED_DELIVERY, RETURNED, COMPLETED, CANCELLED]

/-- One entry of a parcel's status_history array. -/
structure HistoryEntry where
  status : String
  timestamp : Nat
  note : String
deriving DecidableEq, Repr

/-- A parcel record as built by the POST /api/v1/parcels handler.
delivered_at is absent (none) until a DELIVERED transition writes it. -/
structure Parcel where
  tracking_number : String
  order_id : String
  customer_name : String
  customer_phone : String
  customer_address : String
  wilaya : String
  commune : String
  product_list : List String
  price : Int
  cod_amount : Int
  status : String
  webhook_url : Option String
  created_at : Nat
  status_history : List HistoryEntry
  delivered_at : Option Nat
deriving DecidableEq, Repr

/-- The payload sendWebhook posts to the caller-supplied URL (delivery
itself is fire-and-forget I/O and is not modelled; the payload is). -/
structure WebhookEvent where
  url : String
  event : String
  timestamp : Nat
  tracking_number : String
  order_id : String
  status : String
  cod_amount : Int
  delivered_at : Option Nat
  status_history : List HistoryEntry
deriving DecidableEq, Repr

/-- sendWebhook's payload: event "parcel.status.updated" plus the
parcel's current public data (delivered_at || null is an Option). -/
def sendWebhook (url : String) (p : Parcel) (now : Nat) : WebhookEvent :=
  { url := url
    event := "parcel.status.updated"
    timestamp := now
    tracking_number := p.tracking_number
    order_id := p.order_id
    status := p.status
    cod_amount := p.cod_amount
    delivered_at := p.delivered_at
    status_history := p.status_history }

/-- The `if (webhook_url) sendWebhook(...)` guard: a webhook is sent
only when the stored webhook_url is present and truthy (non-empty). -/
def webhookIfAny (p : Parcel) (now : Nat) : List WebhookEvent :=
  match p.webhook_url with
  | none => []
  | some u => if u = "" then [] else [sendWebhook u p now]

/-- The in-memory database: the parcels Map (as an association list in
insertion order) and the parcelIdCounter (initialized to 1000). -/
structure Store where
  parcels : List (String × Parcel)
  parcelIdCounter : Nat
deriving DecidableEq, Repr

/-- The store at process start: empty map, counter 1000. -/
def initialStore : Store := ⟨[], 1000⟩

/-- parcels.get: first entry with the given key, if any. -/
def lookupP : List (String × Parcel) → String → Option Parcel
  | [], _ => none
  | (k, v) :: rest, tn => if k = tn then some v else lookupP rest tn

/-- parcels.set: replace the entry with this key, or append a new one. -/
def setP : List (String × Parcel) → String → Parcel → List (String × Parcel)
  | [], k, v => [(k, v)]
  | (k0, v0) :: rest, k, v =>
    if k0 = k then (k, v) :: rest else (k0, v0) :: setP rest k v

/-- parcels.get lifted to the Store. -/
def getParcel (st : Store) (tn : String) : Option Parcel :=
  lookupP st.parcels tn

/-- JavaScript truthiness of an optional string field: present and
non-empty ("" and undefined are falsy). -/
def truthyStr : Option String → Bool
  | none => false
  | some s => !(s == "")

/-- JavaScript truthiness of an optional numeric field: present and
non-zero (0 and undefined are falsy). -/
def truthyInt : Option Int → Bool
  | none => false
  | some n => !(n == 0)

/-- The `x || d` fallback pattern on a string field: a falsy value
(absent or empty) is replaced by the default. -/
def orDefault (o : Option String) (d : String) : String :=
  match o with
  | none => d
  | some s => if s = "" then d else s

/-- Request body of POST /api/v1/parcels; absent fields are none. -/
structure CreateReq where
  order_id : Option String
  customer_name : Option String
  customer_phone : Option String
  customer_address : Option String
  wilaya : Option String
  commune : Option String
  product_list : Option (List String)
  price : Option Int
  webhook_url : Option String
deriving DecidableEq, Repr

/-- Outcome of the creation handler. -/
inductive CreateResult
  | missingFields
  | created (tracking_number : String)
deriving DecidableEq, Repr

/-- HTTP status code of a creation outcome (400 or 201). -/
def CreateResult.code : CreateResult → Nat
  | .missingFields => 400
  | .created _ => 201

/-- The parcel record built by the creation handler: tracking number
YDN + current counter, PENDING_PICKUP status, one-entry history,
cod_amount mirroring price, Tlemcen fallbacks for falsy region fields. -/
def mkParcel (st : Store) (req : CreateReq) (now : Nat) : Parcel :=
  { tracking_number := "YDN" ++ toString st.parcelIdCounter
    order_id := req.order_id.getD ""
    customer_name := req.customer_name.getD ""
    customer_phone := req.customer_phone.getD ""
    customer_address := req.customer_address.getD ""
    wilaya := orDefault req.wilaya "Tlemcen"
    commune := orDefault req.commune "Tlemcen"
    product_list := req.product_list.getD []
    price := req.price.getD 0
    cod_amount := req.price.getD 0
    status := PENDING_PICKUP
    webhook_url := req.webhook_url
    created_at := now
    status_history :=
      [⟨PENDING_PICKUP, now, "Parcel created and awaiting pickup"⟩]
    delivered_at := none }

/-- POST /api/v1/parcels: validates truthiness of the five required
fields, allocates YDN + counter (post-increment), stores the new parcel
with status PENDING_PICKUP and a one-entry history, and sends the
initial webhook when webhook_url is truthy. -/
def createParcel (st : Store) (req : CreateReq) (now : Nat) :
    Store × CreateResult × List WebhookEvent :=
  if truthyStr req.order_id && truthyStr req.customer_name &&
     truthyStr req.customer_phone && truthyStr req.customer_address &&
     truthyInt req.price then
    (⟨setP st.parcels ("YDN" ++ toString st.parcelIdCounter)
        (mkParcel st req now), st.parcelIdCounter + 1⟩,
      .created ("YDN" ++ toString st.parcelIdCounter),
      webhookIfAny (mkParcel st req now) now)
  else
    (st, .missingFields, [])

/-- Outcome of the manual status-update handler. -/
inductive UpdateResult
  | notFound
  | invalidStatus
  | ok (status : String)
deriving DecidableEq, Repr

/-- HTTP status code of an update outcome (404, 400 or 200). -/
def UpdateResult.code : UpdateResult → Nat
  | .notFound => 404
  | .invalidStatus => 400
  | .ok _ => 200

/-- The shared mutation of both the manual handler and a simulation
tick: set parcel.status, push a history entry, and (unconditionally)
write delivered_at when the new status is DELIVERED. -/
def applyStatus (p : Parcel) (status note : String) (now : Nat) : Parcel :=
  { p with
    status := status
    status_history := p.status_history ++ [⟨status, now, note⟩]
    delivered_at := if status = DELIVERED then some now else p.delivered_at }

/-- PUT /api/v1/parcels/:tracking_number/status: 404 on unknown
tracking number, 400 when the status string is not one of the enum
values, otherwise applies the status, stores the parcel and sends a
webhook when the parcel has a truthy webhook_url. -/
def updateStatus (st : Store) (tn status : String) (note : Option String)
    (now : Nat) : Store × UpdateResult × List WebhookEvent :=
  match getParcel st tn with
  | none => (st, .notFound, [])
  | some p =>
    if statusValues.contains status then
      let p' := applyStatus p status
        (orDefault note ("Status updated to " ++ status)) now
      (⟨setP st.parcels tn p', st.parcelIdCounter⟩, .ok p'.status,
        webhookIfAny p' now)
    else
      (st, .invalidStatus, [])

/-- The "failed" scenario status sequence. -/
def failedFlow : List String :=
  [COLLECTED, IN_TRANSIT, OUT_FOR_DELIVERY, FAILED_DELIVERY, RETURNED]

/-- The default scenario status sequence. -/
def defaultFlow : List String :=
  [COLLECTED, IN_TRANSIT, OUT_FOR_DELIVERY, DELIVERED, COMPLETED]

/-- statusFlow selection from the request's scenario field. -/
def statusFlow (scenario : Option String) : List String :=
  if scenario = some "failed" then failedFlow else defaultFlow

/-- delays[speed] || delays.normal, in milliseconds. -/
def delayOf (speed : Option String) : Nat :=
  match speed with
  | some "fast" => 2000
  | some "normal" => 5000
  | some "slow" => 10000
  | _ => 5000

/-- State of one simulation run: the parcel captured by the interval
closure, the currentIndex counter, whether the interval is still
scheduled, and the webhook payloads emitted so far. -/
structure SimRun where
  parcel : Parcel
  currentIndex : Nat
  timerActive : Bool
  events : List WebhookEvent
deriving DecidableEq, Repr

/-- The run state right after POST .../simulate accepts: index 0,
interval scheduled, nothing emitted. -/
def startSim (p : Parcel) : SimRun :=
  { parcel := p, currentIndex := 0, timerActive := true, events := [] }

/-- One firing of the interval callback.  A cancelled interval fires no
more (identity); a tick with currentIndex past the end clears the
interval and returns without touching the parcel; otherwise it applies
statusFlow[currentIndex], increments the index and emits a webhook when
applicable. -/
def simTick (flow : List String) (r : SimRun) (now : Nat) : SimRun :=
  if !r.timerActive then r
  else if flow.length ≤ r.currentIndex then
    { r with timerActive := false }
  else
    let newStatus := flow.getD r.currentIndex ""
    let p' := applyStatus r.parcel newStatus
      ("Auto-simulated: " ++ newStatus) now
    { r with
      parcel := p'
      currentIndex := r.currentIndex + 1
      events := r.events ++ webhookIfAny p' now }

/-- The first n firings of the interval: the k-th tick (1-based) fires
at time base + delay * k. -/
def simTicks (flow : List String) (base delay : Nat) (r : SimRun) :
    Nat → SimRun
  | 0 => r
  | n + 1 => simTick flow (simTicks flow base delay r n) (base + delay * (n + 1))

/-! Invariant predicates over parcels and the store. -/

/-- Every parcel reachable in the store satisfies P. -/
def storeAll (P : Parcel → Prop) (st : Store) : Prop :=
  ∀ tn p, getParcel st tn = some p → P p

/-- The status recorded in the last history entry, if any. -/
def lastStatus (p : Parcel) : Option String :=
  (p.status_history.getLast?).map HistoryEntry.status

/-- The parcel's status field agrees with its last history entry. -/
def statusConsistent (p : Parcel) : Prop :=
  lastStatus p = some p.status

/-- The history is non-empty and starts with a PENDING_PICKUP entry. -/
def historyInv (p : Parcel) : Prop :=
  p.status_history ≠ [] ∧
  (p.status_history.head?).map HistoryEntry.status = some PENDING_PICKUP

/-! Concrete data used by counterexamples and witnesses: the parcel of
the spec's own example scenario (order ORD1, price 1000). -/

/-- A creation request with all required fields supplied and truthy. -/
def demoReq : CreateReq :=
  { order_id := some "ORD1"
    customer_name := some "A"
    customer_phone := some "000"
    customer_address := some "X"
    wilaya := none
    commune := none
    product_list := none
    price := some 1000
    webhook_url := some "http://localhost:5000/hook" }

/-- The store after creating demoReq at time 0 in a fresh process. -/
def demoStore : Store := (createParcel initialStore demoReq 0).1

/-- The parcel record that creation builds for demoReq. -/
def demoParcel : Parcel :=
  { tracking_number := "YDN1000"
    order_id := "ORD1"
    customer_name := "A"
    customer_phone := "000"
    customer_address := "X"
    wilaya := "Tlemcen"
    commune := "Tlemcen"
    product_list := []
    price := 1000
    cod_amount := 1000
    status := PENDING_PICKUP
    webhook_url := some "http://localhost:5000/hook"
    created_at := 0
    status_history :=
      [⟨PENDING_PICKUP, 0, "Parcel created and awaiting pickup"⟩]
    delivered_at := none }

/-- demoReq with the price field absent entirely. -/
def noPriceReq : CreateReq := { demoReq with price := none }

/-- demoReq with price supplied but equal to 0 (falsy). -/
def zeroPriceReq : CreateReq := { demoReq with price := some 0 }

/-- The store after a first DELIVERED update at time 1. -/
def deliveredOnce : Store :=
  (updateStatus demoStore "YDN1000" DELIVERED none 1).1

/-- The store after a second DELIVERED update at time 2. -/
def deliveredTwice : Store :=
  (updateStatus deliveredOnce "YDN1000" DELIVERED none 2).1

/-! Basic lemmas about the store's association list. -/

theorem lookupP_setP (l : List (String × Parcel)) (k : String) (v : Parcel)
    (k' : String) :
    lookupP (setP l k v) k' = if k' = k then some v else lookupP l k' := by
  induction l with
  | nil =>
    simp only [setP, lookupP]
    by_cases h : k' = k
    · subst h; simp
    · rw [if_neg (fun hh => h hh.symm), if_neg h]
  | cons hd tl ih =>
    obtain ⟨k0, v0⟩ := hd
    simp only [setP]
    by_cases h0 : k0 = k
    · subst h0
      simp only [if_pos rfl, lookupP]
      by_cases h : k0 = k'
      · subst h; simp
      · rw [if_neg h, if_neg (fun hh => h hh.symm), if_neg h]
    · simp only [if_neg h0, lookupP]
      by_cases h : k0 = k'
      · subst h
        rw [if_pos rfl, if_neg h0, if_pos rfl]
      · rw [if_neg h, if_neg h, ih]

theorem storeAll_setP (P : Parcel → Prop) (st : Store)
    (hst : storeAll P st) (tn : String) (p : Parcel) (hp : P p) (c : Nat) :
    storeAll P ⟨setP st.parcels tn p, c⟩ := by
  intro tn' p' h
  unfold getParcel at h
  simp only at h
  rw [lookupP_setP] at h
  split at h
  · cases h; exact hp
  · exact hst tn' p' h

theorem statusConsistent_applyStatus (p : Parcel) (s note : String)
    (now : Nat) : statusConsistent (applyStatus p s note now) := by
  simp [statusConsistent, lastStatus, applyStatus, List.getLast?_concat]

theorem head?_append_singleton {α : Type} (l : List α) (a : α) (h : l ≠ []) :
    (l ++ [a]).head? = l.head? := by
  cases l with
  | nil => exact absurd rfl h
  | cons x xs => simp

theorem historyInv_applyStatus (p : Parcel) (s note : String) (now : Nat)
    (hp : historyInv p) : historyInv (applyStatus p s note now) := by
  obtain ⟨hne, hhd⟩ := hp
  refine ⟨by simp [applyStatus], ?_⟩
  simpa [applyStatus, head?_append_singleton _ _ hne] using hhd

theorem applyStatus_history (p : Parcel) (s note : String) (now : Nat) :
    (applyStatus p s note now).status_history
      = p.status_history ++ [⟨s, now, note⟩] := rfl

theorem applyStatus_delivered_at (p : Parcel) (s note : String) (now : Nat) :
    (applyStatus p s note now).delivered_at
      = if s = DELIVERED then some now else p.delivered_at := rfl

theorem demoStore_lookup : getParcel demoStore "YDN1000" = some demoParcel := by
  decide

/-- A reduction equation for the valid-creation branch. -/
theorem createParcel_of_truthy (st : Store) (req : CreateReq) (now : Nat)
    (h1 : truthyStr req.order_id = true)
    (h2 : truthyStr req.customer_name = true)
    (h3 : truthyStr req.customer_phone = true)
    (h4 : truthyStr req.customer_address = true)
    (h5 : truthyInt req.price = true) :
    createParcel st req now =
      (⟨setP st.parcels ("YDN" ++ toString st.parcelIdCounter)
          (mkParcel st req now), st.parcelIdCounter + 1⟩,
        .created ("YDN" ++ toString st.parcelIdCounter),
        webhookIfAny (mkParcel st req now) now) := by
  unfold createParcel
  rw [h1, h2, h3, h4, h5]
  rfl

/-- C2: for every stored parcel and every status string outside the
enum, the manual update answers invalidStatus (HTTP 400), emits no
webhook, and leaves the store — hence the parcel's status, history and
delivered_at — exactly as it was. -/
theorem update_invalid_status_unchanged
    (st : Store) (tn s : String) (note : Option String) (now : Nat)
    (p : Parcel) (hp : getParcel st tn = some p)
    (hs : statusValues.contains s = false) :
    updateStatus st tn s note now = (st, .invalidStatus, []) ∧
    (updateStatus st tn s note now).2.1.code = 400 ∧
    getParcel (updateStatus st tn s note now).1 tn = some p := by
  have hs' : s ∉ statusValues := by simpa using hs
  have h1 : updateStatus st tn s note now = (st, .invalidStatus, []) := by
    unfold updateStatus
    rw [hp]
    simp [hs']
  exact ⟨h1, by rw [h1]; rfl, by rw [h1]; exact hp⟩

theorem update_invalid_status_unchanged_witness :
    statusValues.contains "shipped" = false ∧
    updateStatus demoStore "YDN1000" "shipped" none 5
      = (demoStore, .invalidStatus, []) := by
  refine ⟨by decide, ?_⟩
  exact (update_invalid_status_unchanged demoStore "YDN1000" "shipped" none 5
    demoParcel demoStore_lookup (by decide)).1

/-- C7: a creation request with at least one required field absent is
rejected with 400, the store is returned unchanged (no parcel added),
and no webhook is sent; in particular the list count is unchanged. -/
theorem create_missing_field_rejected
    (st : Store) (req : CreateReq) (now : Nat)
    (h : req.order_id = none ∨ req.customer_name = none ∨
         req.customer_phone = none ∨ req.customer_address = none ∨
         req.price = none) :
    createParcel st req now = (st, .missingFields, []) ∧
    (createParcel st req now).2.1.code = 400 ∧
    ((createParcel st req now).1).parcels.length = st.parcels.length := by
  have hcond : (truthyStr req.order_id && truthyStr req.customer_name &&
      truthyStr req.customer_phone && truthyStr req.customer_address &&
      truthyInt req.price) = false := by
    rcases h with h | h | h | h | h <;> simp [truthyStr, truthyInt, h]
  have h1 : createParcel st req now = (st, .missingFields, []) := by
    unfold createParcel
    rw [hcond]
    rfl
  exact ⟨h1, by rw [h1]; rfl, by rw [h1]⟩

theorem create_missing_field_rejected_witness :
    noPriceReq.price = none ∧
    createParcel initialStore noPriceReq 0
      = (initialStore, .missingFields, []) := by
  refine ⟨rfl, ?_⟩
  exact (create_missing_field_rejected initialStore noPriceReq 0
    (Or.inr (Or.inr (Or.inr (Or.inr rfl))))).1

/-- C10: the required-field check tests JavaScript truthiness, not
presence: a request in which every required field is present but one is
falsy (empty string, or price 0) is rejected with 400 and nothing is
stored. -/
theorem create_falsy_field_rejected
    (st : Store) (req : CreateReq) (now : Nat)
    (h1 : req.order_id.isSome = true)
    (h2 : req.customer_name.isSome = true)
    (h3 : req.customer_phone.isSome = true)
    (h4 : req.customer_address.isSome = true)
    (h5 : req.price.isSome = true)
    (h : req.order_id = some "" ∨ req.customer_name = some "" ∨
         req.customer_phone = some "" ∨ req.customer_address = some "" ∨
         req.price = some 0) :
    createParcel st req now = (st, .missingFields, []) ∧
    (createParcel st req now).2.1.code = 400 := by
  have hcond : (truthyStr req.order_id && truthyStr req.customer_name &&
      truthyStr req.customer_phone && truthyStr req.customer_address &&
      truthyInt req.price) = false := by
    rcases h with h | h | h | h | h <;> simp [truthyStr, truthyInt, h]
  have he : createParcel st req now = (st, .missingFields, []) := by
    unfold createParcel
    rw [hcond]
    rfl
  exact ⟨he, by rw [he]; rfl⟩

theorem create_falsy_field_rejected_witness :
    zeroPriceReq.price = some 0 ∧
    createParcel initialStore zeroPriceReq 0
      = (initialStore, .missingFields, []) := by
  refine ⟨rfl, ?_⟩
  exact (create_falsy_field_rejected initialStore zeroPriceReq 0
    (by decide) (by decide) (by decide) (by decide) (by decide)
    (Or.inr (Or.inr (Or.inr (Or.inr rfl))))).1

/-- C6 as stated is false: in zeroPriceReq every required field is
supplied, yet creation answers 400 (not 201) and adds nothing to the
store, because the check tests truthiness and 0 is falsy. -/
theorem create_all_supplied_counterexample :
    (zeroPriceReq.order_id.isSome = true ∧
     zeroPriceReq.customer_name.isSome = true ∧
     zeroPriceReq.customer_phone.isSome = true ∧
     zeroPriceReq.customer_address.isSome = true ∧
     zeroPriceReq.price.isSome = true) ∧
    createParcel initialStore zeroPriceReq 0
      = (initialStore, .missingFields, []) ∧
    ¬ (createParcel initialStore zeroPriceReq 0).2.1.code = 201 := by
  decide

/-- C6 (amended to truthy fields): a creation request whose five
required fields are supplied and truthy succeeds with 201, returns
tracking number YDN + current counter, bumps the counter, and stores a
parcel with status PENDING_PICKUP, a one-entry PENDING_PICKUP history
and cod_amount equal to the supplied price. -/
theorem create_truthy_fields_success
    (st : Store) (req : CreateReq) (now : Nat)
    (h1 : truthyStr req.order_id = true)
    (h2 : truthyStr req.customer_name = true)
    (h3 : truthyStr req.customer_phone = true)
    (h4 : truthyStr req.customer_address = true)
    (h5 : truthyInt req.price = true) :
    (createParcel st req now).2.1
      = .created ("YDN" ++ toString st.parcelIdCounter) ∧
    (createParcel st req now).2.1.code = 201 ∧
    ((createParcel st req now).1).parcelIdCounter = st.parcelIdCounter + 1 ∧
    ∃ p : Parcel,
      getParcel (createParcel st req now).1
          ("YDN" ++ toString st.parcelIdCounter) = some p ∧
      p.status = PENDING_PICKUP ∧
      p.status_history.length = 1 ∧
      p.status_history.map HistoryEntry.status = [PENDING_PICKUP] ∧
      p.cod_amount = req.price.getD 0 ∧
      p.price = req.price.getD 0 := by
  have hout := createParcel_of_truthy st req now h1 h2 h3 h4 h5
  rw [hout]
  refine ⟨rfl, rfl, rfl, mkParcel st req now, ?_, rfl, rfl, rfl, rfl, rfl⟩
  simp [getParcel, lookupP_setP]

theorem create_truthy_fields_success_witness :
    (createParcel initialStore demoReq 0).2.1 = .created "YDN1000" ∧
    ∃ p : Parcel,
      getParcel (createParcel initialStore demoReq 0).1 "YDN1000" = some p ∧
      p.status = PENDING_PICKUP ∧
      p.cod_amount = 1000 := by
  have h := create_truthy_fields_success initialStore demoReq 0
    (by decide) (by decide) (by decide) (by decide) (by decide)
  obtain ⟨hres, -, -, p, hp, hst, -, -, hcod, -⟩ := h
  exact ⟨hres, p, hp, hst, hcod⟩

/-- C9: when creation succeeds and webhook_url is supplied (and
truthy), exactly one webhook is dispatched by the creation handler
itself, with event "parcel.status.updated", the initial PENDING_PICKUP
status, the one-entry history and a null delivered_at — before any
status transition has occurred. -/
theorem create_webhook_sent_at_creation
    (st : Store) (req : CreateReq) (now : Nat)
    (h1 : truthyStr req.order_id = true)
    (h2 : truthyStr req.customer_name = true)
    (h3 : truthyStr req.customer_phone = true)
    (h4 : truthyStr req.customer_address = true)
    (h5 : truthyInt req.price = true)
    (u : String) (hu : req.webhook_url = some u) (hne : u ≠ "") :
    ∃ e : WebhookEvent,
      (createParcel st req now).2.2 = [e] ∧
      e.event = "parcel.status.updated" ∧
      e.status = PENDING_PICKUP ∧
      e.status_history.map HistoryEntry.status = [PENDING_PICKUP] ∧
      e.delivered_at = none := by
  have hout := createParcel_of_truthy st req now h1 h2 h3 h4 h5
  rw [hout]
  refine ⟨sendWebhook u (mkParcel st req now) now, ?_, rfl, rfl, rfl, rfl⟩
  simp [webhookIfAny, mkParcel, hu, hne]

theorem create_webhook_sent_at_creation_witness :
    ∃ e : WebhookEvent,
      (createParcel initialStore demoReq 0).2.2 = [e] ∧
      e.event = "parcel.status.updated" ∧
      e.status = PENDING_PICKUP ∧
      e.status_history.map HistoryEntry.status = [PENDING_PICKUP] ∧
      e.delivered_at = none :=
  create_webhook_sent_at_creation initialStore demoReq 0
    (by decide) (by decide) (by decide) (by decide) (by decide)
    "http://localhost:5000/hook" rfl (by decide)

/-- A reduction equation for the not-found branch of the manual update. -/
theorem updateStatus_of_notFound (st : Store) (tn s : String)
    (note : Option String) (now : Nat) (hp : getParcel st tn = none) :
    updateStatus st tn s note now = (st, .notFound, []) := by
  unfold updateStatus
  rw [hp]

/-- A reduction equation for the invalid-status branch of the manual
update. -/
theorem updateStatus_of_invalid (st : Store) (tn s : String)
    (note : Option String) (now : Nat) (p : Parcel)
    (hp : getParcel st tn = some p)
    (hs : statusValues.contains s = false) :
    updateStatus st tn s note now = (st, .invalidStatus, []) := by
  have hs' : s ∉ statusValues := by simpa using hs
  unfold updateStatus
  rw [hp]
  simp [hs']

/-- A reduction equation for the valid branch of the manual update. -/
theorem updateStatus_of_valid (st : Store) (tn s : String)
    (note : Option String) (now : Nat) (p : Parcel)
    (hp : getParcel st tn = some p)
    (hs : statusValues.contains s = true) :
    updateStatus st tn s note now
      = (⟨setP st.parcels tn
            (applyStatus p s (orDefault note ("Status updated to " ++ s))
              now), st.parcelIdCounter⟩,
         .ok s,
         webhookIfAny
           (applyStatus p s (orDefault note ("Status updated to " ++ s))
             now) now) := by
  unfold updateStatus
  rw [hp]
  simp only [hs]
  rfl

/-- C1 as stated is false: the manual handler writes delivered_at on
every DELIVERED transition without an unset check, so a second
DELIVERED update (time 2) overwrites the value the first one set
(time 1). -/
theorem delivered_at_overwritten_counterexample :
    (getParcel deliveredOnce "YDN1000").map Parcel.delivered_at
      = some (some 1) ∧
    (getParcel deliveredTwice "YDN1000").map Parcel.delivered_at
      = some (some 2) ∧
    ¬ ((getParcel deliveredTwice "YDN1000").map Parcel.delivered_at
        = (getParcel deliveredOnce "YDN1000").map Parcel.delivered_at) := by
  decide

/-- C1 (amended): every DELIVERED transition — manual update or
simulation tick, both of which run the same mutation — writes
delivered_at to that transition's own time, overwriting any previously
stored value; a transition to any other status leaves delivered_at
unchanged. -/
theorem delivered_at_written_every_delivered
    (p : Parcel) (note : String) (now : Nat) :
    (applyStatus p DELIVERED note now).delivered_at = some now ∧
    (∀ s, s ≠ DELIVERED →
      (applyStatus p s note now).delivered_at = p.delivered_at) ∧
    (∀ st tn nt, getParcel st tn = some p →
      (getParcel (updateStatus st tn DELIVERED nt now).1 tn).map
          Parcel.delivered_at = some (some now)) := by
  refine ⟨by simp [applyStatus], fun s hs => by simp [applyStatus, hs], ?_⟩
  intro st tn nt hp
  rw [updateStatus_of_valid st tn DELIVERED nt now p hp (by decide)]
  have h2 : getParcel
      (⟨setP st.parcels tn (applyStatus p DELIVERED
        (orDefault nt ("Status updated to " ++ DELIVERED)) now),
        st.parcelIdCounter⟩ : Store) tn
      = some (applyStatus p DELIVERED
          (orDefault nt ("Status updated to " ++ DELIVERED)) now) := by
    show lookupP (setP st.parcels tn _) tn = some _
    rw [lookupP_setP, if_pos rfl]
  rw [h2]
  rfl

theorem delivered_at_written_every_delivered_witness :
    (applyStatus demoParcel DELIVERED "n" 7).delivered_at = some 7 ∧
    (applyStatus demoParcel COLLECTED "n" 7).delivered_at
      = demoParcel.delivered_at ∧
    (getParcel (updateStatus demoStore "YDN1000" DELIVERED none 7).1
        "YDN1000").map Parcel.delivered_at = some (some 7) := by
  obtain ⟨ha, hb, hc⟩ :=
    delivered_at_written_every_delivered demoParcel "n" 7
  exact ⟨ha, hb COLLECTED (by decide),
    hc demoStore "YDN1000" none demoStore_lookup⟩

/-! Helpers for discharging storeAll hypotheses on concrete stores. -/

theorem storeAll_initial (P : Parcel → Prop) : storeAll P initialStore := by
  intro tn p hp
  exact Option.noConfusion hp

theorem demoStore_eq : demoStore = ⟨[("YDN1000", demoParcel)], 1001⟩ := by
  decide

theorem storeAll_demo (P : Parcel → Prop) (h : P demoParcel) :
    storeAll P demoStore := by
  intro tn p hp
  rw [demoStore_eq] at hp
  unfold getParcel at hp
  simp only at hp
  unfold lookupP at hp
  split at hp
  · cases hp; exact h
  · simp [lookupP] at hp

theorem statusConsistent_mkParcel (st : Store) (req : CreateReq)
    (now : Nat) : statusConsistent (mkParcel st req now) := rfl

theorem historyInv_mkParcel (st : Store) (req : CreateReq) (now : Nat) :
    historyInv (mkParcel st req now) :=
  ⟨List.cons_ne_nil _ _, rfl⟩

theorem statusConsistent_simTick (flow : List String) (r : SimRun)
    (now : Nat) (hr : statusConsistent r.parcel) :
    statusConsistent (simTick flow r now).parcel := by
  unfold simTick
  split
  · exact hr
  · split
    · exact hr
    · exact statusConsistent_applyStatus _ _ _ _

/-- C3: every operation keeps each stored parcel's status field equal
to the status of the last entry of its status_history: creation (both
branches), the manual update (all branches), a simulation tick on the
captured parcel, and the store write-back a simulation tick performs. -/
theorem ops_preserve_status_consistency
    (st : Store) (hst : storeAll statusConsistent st) :
    (∀ req now, storeAll statusConsistent (createParcel st req now).1) ∧
    (∀ tn s note now,
      storeAll statusConsistent (updateStatus st tn s note now).1) ∧
    (∀ flow r now, statusConsistent r.parcel →
      statusConsistent (simTick flow r now).parcel) ∧
    (∀ flow tn r now c, statusConsistent r.parcel →
      storeAll statusConsistent
        ⟨setP st.parcels tn (simTick flow r now).parcel, c⟩) := by
  refine ⟨?_, ?_, statusConsistent_simTick, ?_⟩
  · intro req now
    unfold createParcel
    split
    · exact storeAll_setP _ st hst _ _ (statusConsistent_mkParcel st req now) _
    · exact hst
  · intro tn s note now
    cases hg : getParcel st tn with
    | none =>
      rw [updateStatus_of_notFound st tn s note now hg]
      exact hst
    | some p =>
      by_cases hs : statusValues.contains s = true
      · rw [updateStatus_of_valid st tn s note now p hg hs]
        exact storeAll_setP _ st hst _ _
          (statusConsistent_applyStatus _ _ _ _) _
      · rw [updateStatus_of_invalid st tn s note now p hg
          (by simpa using hs)]
        exact hst
  · intro flow tn r now c hr
    exact storeAll_setP _ st hst _ _
      (statusConsistent_simTick flow r now hr) _

theorem ops_preserve_status_consistency_witness :
    storeAll statusConsistent
      (updateStatus demoStore "YDN1000" "collected" none 3).1 :=
  ((ops_preserve_status_consistency demoStore
      (storeAll_demo _ rfl)).2.1) "YDN1000" "collected" none 3

/-- C8: history invariants across every operation: each stored parcel
keeps a non-empty history whose first entry is PENDING_PICKUP, and no
operation ever truncates, removes or reorders history entries — every
parcel's history after the operation is its old history plus an
appended (possibly empty) suffix.  For creation this is stated under
freshness of the allocated tracking number, which the monotone counter
guarantees in every real run. -/
theorem ops_history_invariant_append_only
    (st : Store) (hst : storeAll historyInv st) :
    (∀ req now, storeAll historyInv (createParcel st req now).1 ∧
      (getParcel st ("YDN" ++ toString st.parcelIdCounter) = none →
        ∀ tn p, getParcel st tn = some p →
          ∃ p' t, getParcel (createParcel st req now).1 tn = some p' ∧
            p'.status_history = p.status_history ++ t)) ∧
    (∀ tn s note now,
      storeAll historyInv (updateStatus st tn s note now).1 ∧
      (∀ tn' p, getParcel st tn' = some p →
        ∃ p' t, getParcel (updateStatus st tn s note now).1 tn' = some p' ∧
          p'.status_history = p.status_history ++ t)) ∧
    (∀ flow r now, historyInv r.parcel →
      historyInv (simTick flow r now).parcel ∧
      ∃ t, (simTick flow r now).parcel.status_history
        = r.parcel.status_history ++ t) := by
  refine ⟨?_, ?_, ?_⟩
  · intro req now
    constructor
    · unfold createParcel
      split
      · exact storeAll_setP _ st hst _ _ (historyInv_mkParcel st req now) _
      · exact hst
    · intro hfresh tn p hp
      have hne : tn ≠ "YDN" ++ toString st.parcelIdCounter := by
        intro he
        rw [he, hfresh] at hp
        exact Option.noConfusion hp
      unfold createParcel
      split
      · refine ⟨p, [], ?_, (List.append_nil _).symm⟩
        show lookupP (setP st.parcels _ _) tn = some p
        rw [lookupP_setP, if_neg hne]
        exact hp
      · exact ⟨p, [], hp, (List.append_nil _).symm⟩
  · intro tn s note now
    cases hg : getParcel st tn with
    | none =>
      rw [updateStatus_of_notFound st tn s note now hg]
      exact ⟨hst, fun tn' p hp => ⟨p, [], hp, (List.append_nil _).symm⟩⟩
    | some p0 =>
      by_cases hs : statusValues.contains s = true
      · rw [updateStatus_of_valid st tn s note now p0 hg hs]
        constructor
        · exact storeAll_setP _ st hst _ _
            (historyInv_applyStatus _ _ _ _ (hst tn p0 hg)) _
        · intro tn' p hp
          by_cases he : tn' = tn
          · subst he
            have hpp : p = p0 := Option.some.inj (hp.symm.trans hg)
            refine ⟨applyStatus p0 s
                (orDefault note ("Status updated to " ++ s)) now,
              [⟨s, now, orDefault note ("Status updated to " ++ s)⟩],
              ?_, ?_⟩
            · show lookupP (setP st.parcels tn' _) tn' = some _
              rw [lookupP_setP, if_pos rfl]
            · rw [hpp]
              rfl
          · refine ⟨p, [], ?_, (List.append_nil _).symm⟩
            show lookupP (setP st.parcels tn _) tn' = some p
            rw [lookupP_setP, if_neg he]
            exact hp
      · rw [updateStatus_of_invalid st tn s note now p0 hg
          (by simpa using hs)]
        exact ⟨hst, fun tn' p hp => ⟨p, [], hp, (List.append_nil _).symm⟩⟩
  · intro flow r now hr
    unfold simTick
    split
    · exact ⟨hr, [], (List.append_nil _).symm⟩
    · split
      · exact ⟨hr, [], (List.append_nil _).symm⟩
      · exact ⟨historyInv_applyStatus _ _ _ _ hr,
          [⟨flow.getD r.currentIndex "", now,
            "Auto-simulated: " ++ flow.getD r.currentIndex ""⟩], rfl⟩

theorem ops_history_invariant_append_only_witness :
    storeAll historyInv
      (updateStatus demoStore "YDN1000" "in_transit" none 4).1 :=
  (((ops_history_invariant_append_only demoStore
      (storeAll_demo _ ⟨List.cons_ne_nil _ _, rfl⟩)).2.1)
        "YDN1000" "in_transit" none 4).1

/-! Lemmas about the simulation interval. -/

theorem simTick_inactive (flow : List String) (r : SimRun) (now : Nat)
    (h : r.timerActive = false) : simTick flow r now = r := by
  simp [simTick, h]

theorem simTick_cancel (flow : List String) (r : SimRun) (now : Nat)
    (ha : r.timerActive = true) (hge : flow.length ≤ r.currentIndex) :
    simTick flow r now = { r with timerActive := false } := by
  simp [simTick, ha, hge]

theorem simTick_apply (flow : List String) (r : SimRun) (now : Nat)
    (ha : r.timerActive = true) (hlt : r.currentIndex < flow.length) :
    simTick flow r now =
      { r with
        parcel := applyStatus r.parcel (flow.getD r.currentIndex "")
          ("Auto-simulated: " ++ flow.getD r.currentIndex "") now
        currentIndex := r.currentIndex + 1
        events := r.events ++ webhookIfAny (applyStatus r.parcel
          (flow.getD r.currentIndex "")
          ("Auto-simulated: " ++ flow.getD r.currentIndex "") now) now } := by
  simp [simTick, ha, Nat.not_le.mpr hlt]

/-- Characterization of a run's first n ticks, for n up to the flow's
length: the counter matches n, the interval is still scheduled, the
history has grown by exactly the first n flow statuses in order, and —
when the flow has no DELIVERED member — delivered_at is untouched. -/
theorem simTicks_run (flow : List String) (base delay : Nat) (p : Parcel)
    (n : Nat) (hn : n ≤ flow.length) :
    (simTicks flow base delay (startSim p) n).currentIndex = n ∧
    (simTicks flow base delay (startSim p) n).timerActive = true ∧
    (∃ t, (simTicks flow base delay (startSim p) n).parcel.status_history
        = p.status_history ++ t ∧
      t.map HistoryEntry.status = flow.take n) ∧
    ((∀ s ∈ flow, s ≠ DELIVERED) →
      (simTicks flow base delay (startSim p) n).parcel.delivered_at
        = p.delivered_at) := by
  induction n with
  | zero =>
    exact ⟨rfl, rfl, ⟨[], (List.append_nil _).symm, rfl⟩, fun _ => rfl⟩
  | succ n ih =>
    obtain ⟨hidx, hact, ⟨t, ht, hmap⟩, hdel⟩ := ih (Nat.le_of_succ_le hn)
    have hlt : (simTicks flow base delay (startSim p) n).currentIndex
        < flow.length := by
      rw [hidx]
      omega
    have hstep := simTick_apply flow (simTicks flow base delay (startSim p) n)
      (base + delay * (n + 1)) hact hlt
    have hit : simTicks flow base delay (startSim p) (n + 1)
        = simTick flow (simTicks flow base delay (startSim p) n)
            (base + delay * (n + 1)) := rfl
    have hnth : flow.getD n "" = flow.get ⟨n, by omega⟩ := by
      simp [List.getD, List.getElem?_eq_getElem (show n < flow.length by omega)]
    rw [hit, hstep, hidx]
    refine ⟨rfl, hact, ?_, ?_⟩
    · refine ⟨t ++ [⟨flow.getD n "", base + delay * (n + 1),
        "Auto-simulated: " ++ flow.getD n ""⟩], ?_, ?_⟩
      · rw [applyStatus_history, ht, List.append_assoc]
      · rw [List.map_append, hmap, List.take_succ]
        simp [hnth, List.getElem?_eq_getElem (show n < flow.length by omega)]
    · intro hflow
      rw [applyStatus_delivered_at,
        if_neg (hflow _ (by rw [hnth]; exact flow.get_mem _ _))]
      exact hdel hflow

/-- After the tick that reaches the end of the flow the interval is
not yet cancelled: the next tick fires as a no-op and cancels it. -/
theorem simTicks_succ_length (flow : List String) (base delay : Nat)
    (p : Parcel) :
    simTicks flow base delay (startSim p) (flow.length + 1)
      = { simTicks flow base delay (startSim p) flow.length with
          timerActive := false } := by
  have h := simTicks_run flow base delay p flow.length (le_refl _)
  exact simTick_cancel flow _ _ h.2.1 (le_of_eq h.1.symm)

/-- Once the interval is cancelled the run state never changes. -/
theorem simTicks_stable (flow : List String) (base delay : Nat)
    (p : Parcel) (m : Nat) (hm : flow.length + 1 ≤ m) :
    simTicks flow base delay (startSim p) m
      = simTicks flow base delay (startSim p) (flow.length + 1) := by
  induction m with
  | zero => omega
  | succ m ih =>
    by_cases h : flow.length + 1 ≤ m
    · have hoff : (simTicks flow base delay (startSim p)
          (flow.length + 1)).timerActive = false := by
        rw [simTicks_succ_length]
      have hit : simTicks flow base delay (startSim p) (m + 1)
          = simTick flow (simTicks flow base delay (startSim p) m)
              (base + delay * (m + 1)) := rfl
      rw [hit, ih h, simTick_inactive flow _ _ hoff]
    · have hm' : m + 1 = flow.length + 1 := by omega
      rw [hm']

/-- C4 as stated is false on the default flow: after the fifth tick —
the one that applies the final status COMPLETED — the interval is
still scheduled (timerActive), so a sixth tick fires; only that sixth
tick cancels the timer, changing nothing else. -/
theorem sim_extra_tick_counterexample :
    (simTicks defaultFlow 0 2000 (startSim demoParcel) 5).currentIndex
      = 5 ∧
    (simTicks defaultFlow 0 2000 (startSim demoParcel) 5).parcel.status
      = COMPLETED ∧
    (simTicks defaultFlow 0 2000 (startSim demoParcel) 5).timerActive
      = true ∧
    (simTicks defaultFlow 0 2000 (startSim demoParcel) 6).timerActive
      = false ∧
    (simTicks defaultFlow 0 2000 (startSim demoParcel) 6).parcel
      = (simTicks defaultFlow 0 2000 (startSim demoParcel) 5).parcel := by
  decide

/-- C4 (amended): the tick that applies the final status of the flow
leaves the interval scheduled; the timer is cancelled only by the next
tick, which fires once more as a no-op (same parcel, same emitted
webhooks), after which the run state never changes again. -/
theorem sim_timer_cancelled_on_extra_tick
    (flow : List String) (base delay : Nat) (p : Parcel) :
    (simTicks flow base delay (startSim p) flow.length).currentIndex
      = flow.length ∧
    (simTicks flow base delay (startSim p) flow.length).timerActive
      = true ∧
    (∃ t, (simTicks flow base delay (startSim p)
          flow.length).parcel.status_history
        = p.status_history ++ t ∧
      t.map HistoryEntry.status = flow) ∧
    (simTicks flow base delay (startSim p) (flow.length + 1)).timerActive
      = false ∧
    (simTicks flow base delay (startSim p) (flow.length + 1)).parcel
      = (simTicks flow base delay (startSim p) flow.length).parcel ∧
    (simTicks flow base delay (startSim p) (flow.length + 1)).events
      = (simTicks flow base delay (startSim p) flow.length).events ∧
    (∀ m, flow.length + 1 ≤ m →
      simTicks flow base delay (startSim p) m
        = simTicks flow base delay (startSim p) (flow.length + 1)) := by
  obtain ⟨hidx, hact, ⟨t, ht, hmap⟩, -⟩ :=
    simTicks_run flow base delay p flow.length (le_refl _)
  have hsucc := simTicks_succ_length flow base delay p
  refine ⟨hidx, hact, ⟨t, ht, by rw [hmap, List.take_length]⟩,
    by rw [hsucc], by rw [hsucc], by rw [hsucc],
    simTicks_stable flow base delay p⟩

theorem sim_timer_cancelled_on_extra_tick_witness :
    (simTicks defaultFlow 0 2000 (startSim demoParcel) 5).timerActive
      = true ∧
    (simTicks defaultFlow 0 2000 (startSim demoParcel) 6).timerActive
      = false ∧
    simTicks defaultFlow 0 2000 (startSim demoParcel) 7
      = simTicks defaultFlow 0 2000 (startSim demoParcel) 6 := by
  obtain ⟨-, hact, -, hoff, -, -, hstab⟩ :=
    sim_timer_cancelled_on_extra_tick defaultFlow 0 2000 demoParcel
  exact ⟨hact, hoff, hstab 7 (by decide)⟩

/-- C5: a failed-scenario simulation run (statusFlow for
scenario "failed") appends beyond the pre-existing history exactly
COLLECTED, IN_TRANSIT, OUT_FOR_DELIVERY, FAILED_DELIVERY, RETURNED in
that order — after n ticks the first n of them, all five from the
fifth tick on — no DELIVERED entry is ever appended, and the run never
touches delivered_at. -/
theorem failed_scenario_no_delivered (base delay : Nat) (p : Parcel)
    (n : Nat) :
    statusFlow (some "failed") = failedFlow ∧
    ∃ t, (simTicks failedFlow base delay (startSim p) n).parcel.status_history
        = p.status_history ++ t ∧
      t.map HistoryEntry.status = failedFlow.take n ∧
      DELIVERED ∉ t.map HistoryEntry.status ∧
      (5 ≤ n → t.map HistoryEntry.status = failedFlow) ∧
      (simTicks failedFlow base delay (startSim p) n).parcel.delivered_at
        = p.delivered_at := by
  refine ⟨rfl, ?_⟩
  have hlen : failedFlow.length = 5 := rfl
  by_cases hn : n ≤ failedFlow.length
  · obtain ⟨-, -, ⟨t, ht, hmap⟩, hdel⟩ :=
      simTicks_run failedFlow base delay p n hn
    have hnotin : DELIVERED ∉ t.map HistoryEntry.status := by
      rw [hmap]
      intro hmem
      exact absurd (List.take_subset _ _ hmem) (by decide)
    refine ⟨t, ht, hmap, hnotin, ?_, hdel (by decide)⟩
    intro h5
    rw [hlen] at hn
    have hn5 : n = 5 := by omega
    rw [hmap, hn5]
    rfl
  · have hm : failedFlow.length + 1 ≤ n := by
      rw [hlen]
      rw [hlen] at hn
      omega
    have hstab := simTicks_stable failedFlow base delay p n hm
    have hsucc := simTicks_succ_length failedFlow base delay p
    obtain ⟨-, -, ⟨t, ht, hmap⟩, hdel⟩ :=
      simTicks_run failedFlow base delay p failedFlow.length (le_refl _)
    have hmap' : t.map HistoryEntry.status = failedFlow := by
      rw [hmap, List.take_length]
    have hparcel : (simTicks failedFlow base delay (startSim p) n).parcel
        = (simTicks failedFlow base delay (startSim p)
            failedFlow.length).parcel := by
      rw [hstab, hsucc]
    refine ⟨t, ?_, ?_, ?_, fun _ => hmap', ?_⟩
    · rw [hparcel]
      exact ht
    · rw [hmap']
      exact (List.take_of_length_le (by rw [hlen]; omega)).symm
    · rw [hmap']
      decide
    · rw [hparcel]
      exact hdel (by decide)

theorem failed_scenario_no_delivered_witness :
    ∃ t, (simTicks failedFlow 0 2000
          (startSim demoParcel) 5).parcel.status_history
        = demoParcel.status_history ++ t ∧
      t.map HistoryEntry.status = failedFlow.take 5 ∧
      DELIVERED ∉ t.map HistoryEntry.status ∧
      (5 ≤ 5 → t.map HistoryEntry.status = failedFlow) ∧
      (simTicks failedFlow 0 2000
          (startSim demoParcel) 5).parcel.delivered_at
        = demoParcel.delivered_at :=
  (failed_scenario_no_delivered 0 2000 demoParcel 5).2

end MockDelivery
